import Mathlib

/-!
Shallow embedding of `climateseed/auth0_client_rs`, file `src/authorization.rs`.

The crate performs OAuth2 client-credentials authentication against an Auth0
token endpoint and verifies JWTs against the provider's published JWKS.
The embedding models the two HTTP operations (`authenticate`, `fetch_jwks`)
and the verification pipeline (`valid_jwt`) as pure functions over explicit
representations of the network outcomes, so that every control path of the
Rust source (lines 47-121 of `authorization.rs`) corresponds to a case of a
Lean function.

External collaborators (the `reqwest` HTTP client, `serde_json`, and the
`alcoholic_jwt` crate supplying `token_kid`, `JWKS::find` and `validate`) are
modelled at their boundary: network sends and the two `alcoholic_jwt`
capabilities are injected as data/function parameters, mirroring the spec's
"the core consumes a capability" stance.
-/

namespace Auth0

/-- JSON values, as produced by `serde_json` parsing of a response body.
Objects are association lists of fields in textual order. -/
inductive Json where
  | str : String → Json
  | num : Int → Json
  | bool : Bool → Json
  | null : Json
  | arr : List Json → Json
  | obj : List (String × Json) → Json
  deriving Repr

/-- First field with the given name in a JSON object body
(serde reads fields in order; unknown fields are ignored by default). -/
def lookupField : List (String × Json) → String → Option Json
  | [], _ => none
  | (k, v) :: rest, name => if k = name then some v else lookupField rest name

/-- The error a `reqwest` call can surface to this crate.
`connect` stands for a network-level failure of `send()` / `get()`
(connection, DNS, ...); `decode` for a failure of `Response::json()` to
decode the body. `reqwest` does not fail on a non-success HTTP status unless
`error_for_status` is called, and `authorization.rs` never calls it. -/
inductive ReqwestErr where
  | connect
  | decode
  deriving Repr, DecidableEq

/-- Causes reported by the external verification capability
(`alcoholic_jwt::ValidationError`), as the spec subdivides InvalidSignature:
signature mismatch, unsupported algorithm, malformed signature encoding,
or a failed claim check. -/
inductive ValidationError where
  | invalidSignature
  | unsupportedAlgorithm
  | malformedSignature
  | claimFailed : String → ValidationError
  deriving Repr, DecidableEq

/-- Modelled from the spec: the crate error type lives in `src/error.rs`,
which is not under `src/`; only its uses in `authorization.rs` are visible.
From those uses and the spec's error taxonomy (section 7):
`http` wraps a `reqwest` error (the spec's Transport kind, via `From` and
the `?` operator on `send`/`get`/`json`); `json` wraps a `serde_json`
parse error (the spec's MalformedResponse kind, via `?` on `from_str`);
`jwtMissingKid` is `Error::JwtMissingKid` (the spec's UnknownSigningKey
kind); `invalidJwt` is `Error::InvalidJwt(ValidationError)` (the spec's
InvalidSignature / ClaimValidationFailed kinds), as seen in the tests. -/
inductive Error where
  | http : ReqwestErr → Error
  | json : Error
  | jwtMissingKid : Error
  | invalidJwt : ValidationError → Error
  deriving Repr, DecidableEq

/-- An HTTP response actually received from the remote endpoint:
its status code, and the `serde_json` parse of its body text
(`none` when the text is not valid JSON). -/
structure Response where
  status : Nat
  body : Option Json
  deriving Repr

/-- Modelled from the spec: the `Auth0Client` struct is declared in
`src/lib.rs`, which is not under `src/`. Per the spec's data model, the
Access Credential is `client_id`, `client_secret`, `domain`, `audience`,
`grant_type` — configuration supplied once at construction — and the
Access Token is mutable state, absent at construction. -/
structure Auth0Client where
  client_id : String
  client_secret : String
  domain : String
  audience : String
  grant_type : String
  access_token : Option String
  deriving Repr, DecidableEq

/-- Modelled from the spec: `Auth0Client::new(client_id, client_secret,
domain, audience)` (seen in the doc example and tests) stores the
configuration, uses the client-credentials grant, and leaves the access
token absent. -/
def Auth0Client.new (client_id client_secret domain audience : String) :
    Auth0Client :=
  { client_id := client_id
    client_secret := client_secret
    domain := domain
    audience := audience
    grant_type := "client_credentials"
    access_token := none }

/-- The response shape `authenticate` deserializes
(`struct AccessTokenResponse`, lines 39-43): a single required field
`access_token : String`. No `token_type` field is declared on the struct,
and serde ignores unknown fields by default. -/
structure AccessTokenResponse where
  access_token : String
  deriving Repr, DecidableEq

/-- Behaviour of `serde_json::from_str::<AccessTokenResponse>` on a body:
fails when the text is not JSON, or is not an object, or the object has no
string `access_token` field; all other fields are ignored. -/
def parseAccessTokenResponse : Option Json → Option AccessTokenResponse
  | some (Json.obj fields) =>
    match lookupField fields "access_token" with
    | some (Json.str t) => some { access_token := t }
    | _ => none
  | _ => none

/-- One left-to-right, non-overlapping pass replacing every occurrence of
the two-character pattern `//` by `/`, which is exactly the semantics of
Rust's `str::replace("//", "/")` used on line 48. -/
def collapseSlashes : List Char → List Char
  | [] => []
  | [c] => [c]
  | c1 :: c2 :: rest =>
    if c1 = '/' ∧ c2 = '/' then '/' :: collapseSlashes rest
    else c1 :: collapseSlashes (c2 :: rest)

/-- Whether the character list contains two adjacent slashes. -/
def hasDoubleSlash : List Char → Bool
  | c1 :: c2 :: rest => (c1 = '/' && c2 = '/') || hasDoubleSlash (c2 :: rest)
  | _ => false

/-- The URL `authenticate` posts to, line 48 of the source:
`format!("\x7b\x7d/oauth/token", self.domain).replace("//", "/")`. -/
def authUrl (domain : String) : String :=
  String.mk (collapseSlashes (domain ++ "/oauth/token").data)

/-- The request body built on lines 52-60: a map with exactly the four
entries inserted there, drawn from the client's configuration. -/
def authBody (c : Auth0Client) : List (String × String) :=
  [("grant_type", c.grant_type),
   ("client_id", c.client_id),
   ("client_secret", c.client_secret),
   ("audience", c.audience)]

/-- `Authenticatable::authenticate` for `Auth0Client`, lines 47-72.
`sendResult` is the outcome of `self.http_client.post(&url).json(&body)
.send()` followed by `.text()`: either a `reqwest` failure (propagated by
`?` on line 62/64) or a received response. The status is read only for the
debug log on line 66 and never influences control flow. The body is then
parsed as `AccessTokenResponse` (line 68, `?` on the serde error), and only
on success is the access token stored (line 70). Returns the client state
after the call together with the call's result. -/
def authenticate (c : Auth0Client) (sendResult : Except ReqwestErr Response) :
    Auth0Client × Except Error Unit :=
  match sendResult with
  | .error e => (c, .error (.http e))
  | .ok resp =>
    match parseAccessTokenResponse resp.body with
    | none => (c, .error .json)
    | some r => ({ c with access_token := some r.access_token }, .ok ())

/-- A JSON Web Key as this crate consumes it: a key id plus key material
that is opaque to the crate (only `alcoholic_jwt` looks inside it). -/
structure JWK where
  kid : String
  material : String
  deriving Repr, DecidableEq

/-- A JSON Web Key Set: the list of keys from the provider document. -/
structure JWKS where
  keys : List JWK
  deriving Repr, DecidableEq

/-- The external capability `alcoholic_jwt::JWKS::find`: the first key of
the set whose kid equals the given one, by exact string equality
(the spec's Key Resolver contract). -/
def JWKS.find (j : JWKS) (kid : String) : Option JWK :=
  j.keys.find? (fun k => k.kid = kid)

/-- Decoding of a JWKS body by `Response::json::<JWKS>()`: the body must be
a JSON object whose `keys` field is an array of objects each carrying a
string `kid` (the material fields are opaque to this crate and summarized
by their rendering). -/
def parseJWK : Json → Option JWK
  | Json.obj fields =>
    match lookupField fields "kid" with
    | some (Json.str k) => some { kid := k, material := reprStr fields }
    | _ => none
  | _ => none

/-- Decoding of the whole key-set document: see `parseJWK`. -/
def parseJWKS : Option Json → Option JWKS
  | some (Json.obj fields) =>
    match lookupField fields "keys" with
    | some (Json.arr items) =>
      match items.mapM parseJWK with
      | some ks => some { keys := ks }
      | none => none
    | _ => none
  | _ => none

/-- `fetch_jwks`, lines 80-85: `reqwest::get(uri)` followed by
`res.json::<JWKS>()`. A network failure of `get` propagates via `?` as the
`reqwest` error; a body that does not decode as a JWKS is itself a
`reqwest` decode error (`Response::json` failure), so it lands in the same
`Error::http` variant. The HTTP status is never inspected. -/
def fetch_jwks (getResult : Except ReqwestErr Response) : Except Error JWKS :=
  match getResult with
  | .error e => .error (.http e)
  | .ok resp =>
    match parseJWKS resp.body with
    | none => .error (.http .decode)
    | some jwks => .ok jwks

/-- `alcoholic_jwt::Validation`: the claim checks a caller may request. -/
inductive Validation where
  | SubjectPresent
  | NotExpired
  | Issuer : String → Validation
  | Audience : String → Validation
  deriving Repr, DecidableEq

/-- `alcoholic_jwt::ValidJWT`: the decoded token returned on success. -/
structure ValidJWT where
  headers : Json
  claims : Json
  deriving Repr

/-- Outcome of a call that, besides succeeding or returning a typed error,
may abort the process (Rust `panic!` via `.expect`). -/
inductive Outcome (α : Type) where
  | ok : α → Outcome α
  | error : Error → Outcome α
  | fatal : String → Outcome α
  deriving Repr

/-- The external capabilities `valid_jwt` consumes, injected as functions:
the network `GET` of a URI (used through `fetch_jwks`), and the
`alcoholic_jwt` functions `token_kid` (header decoding: `Except.error` when
the header segment cannot be decoded, `Except.ok none` when it decodes but
carries no kid) and `validate` (signature check plus claim validation). -/
structure JwtCaps where
  get : String → Except ReqwestErr Response
  token_kid : String → Except Unit (Option String)
  validate : String → JWK → List Validation → Except ValidationError ValidJWT

/-- The JWKS discovery URI built on line 112. -/
def jwksUri (authority : String) : String :=
  authority ++ "/.well-known/jwks.json"

/-- `valid_jwt`, lines 107-121, step for step:
line 112 first fetches the JWKS (any fetch error returns via `?`);
lines 113-116 then decode the kid: a `token_kid` error becomes
`Error::JwtMissingKid`, while `Ok(None)` hits
`.expect("failed to decode kid")` and aborts;
line 117 resolves the key, `None` becoming `Error::JwtMissingKid`;
line 118 runs `validate`, its error wrapped as `Error::InvalidJwt` by `?`. -/
def valid_jwt (caps : JwtCaps) (token : String) (authority : String)
    (validations : List Validation) : Outcome ValidJWT :=
  match fetch_jwks (caps.get (jwksUri authority)) with
  | .error e => .error e
  | .ok jwks =>
    match caps.token_kid token with
    | .error _ => .error .jwtMissingKid
    | .ok none => .fatal "failed to decode kid"
    | .ok (some kid) =>
      match jwks.find kid with
      | none => .error .jwtMissingKid
      | some jwk =>
        match caps.validate token jwk validations with
        | .error e => .error (.invalidJwt e)
        | .ok v => .ok v

/-! ### Claim theorems -/

/-- Concrete capabilities: the discovery endpoint serves a key set with zero
keys, and the token's header carries kid "abc". -/
def capsEmptySet : JwtCaps :=
  { get := fun _ => .ok { status := 200, body := some (Json.obj [("keys", Json.arr [])]) }
    token_kid := fun _ => .ok (some "abc")
    validate := fun _ _ _ => .error .invalidSignature }

/-- C1: whenever the JWKS fetch succeeds, the token's header carries a kid,
and no key of the fetched set has that kid (the zero-key set included),
`valid_jwt` returns exactly `Error::JwtMissingKid` (the UnknownSigningKey
kind) — so never a transport error, another error, or an abort. -/
theorem valid_jwt_unknown_kid (caps : JwtCaps) (token authority : String)
    (validations : List Validation) (jwks : JWKS) (kid : String)
    (hfetch : fetch_jwks (caps.get (jwksUri authority)) = .ok jwks)
    (hkid : caps.token_kid token = .ok (some kid))
    (hfind : jwks.find kid = none) :
    valid_jwt caps token authority validations = .error .jwtMissingKid := by
  simp only [valid_jwt, hfetch, hkid, hfind]

/-- C1 witness: the spec's literal scenario — key set with zero keys, token
kid "abc" — yields `JwtMissingKid`. -/
theorem valid_jwt_unknown_kid_witness :
    fetch_jwks (capsEmptySet.get (jwksUri "https://tenant.auth0.com")) = .ok { keys := [] } ∧
    capsEmptySet.token_kid "token" = .ok (some "abc") ∧
    JWKS.find { keys := [] } "abc" = none ∧
    valid_jwt capsEmptySet "token" "https://tenant.auth0.com" [Validation.SubjectPresent]
      = .error .jwtMissingKid :=
  ⟨rfl, rfl, rfl,
   valid_jwt_unknown_kid capsEmptySet "token" "https://tenant.auth0.com"
     [Validation.SubjectPresent] { keys := [] } "abc" rfl rfl rfl⟩

/-- Concrete capabilities: one key "k1" in the set, the token's kid resolves
to it, and the verification capability reports a signature mismatch. -/
def jwksOneKeyBody : Json :=
  Json.obj [("keys", Json.arr [Json.obj [("kid", Json.str "k1")]])]

def capsBadSig : JwtCaps :=
  { get := fun _ => .ok { status := 200, body := some jwksOneKeyBody }
    token_kid := fun _ => .ok (some "k1")
    validate := fun _ _ _ => .error .invalidSignature }

/-- C2: whenever the fetch succeeds, the header's kid resolves to a key of
the fetched set, and the verification capability reports a signature
mismatch, `valid_jwt` returns exactly
`Error::InvalidJwt(ValidationError::InvalidSignature)` — the
InvalidSignature kind with the signature-mismatch cause, not a
malformed-token classification. -/
theorem valid_jwt_invalid_signature (caps : JwtCaps) (token authority : String)
    (validations : List Validation) (jwks : JWKS) (kid : String) (jwk : JWK)
    (hfetch : fetch_jwks (caps.get (jwksUri authority)) = .ok jwks)
    (hkid : caps.token_kid token = .ok (some kid))
    (hfind : jwks.find kid = some jwk)
    (hval : caps.validate token jwk validations = .error .invalidSignature) :
    valid_jwt caps token authority validations
      = .error (.invalidJwt .invalidSignature) := by
  simp only [valid_jwt, hfetch, hkid, hfind, hval]

/-- C2 witness: a resolved key with a wrong signature yields
`InvalidJwt(InvalidSignature)`. -/
theorem valid_jwt_invalid_signature_witness :
    capsBadSig.token_kid "token" = .ok (some "k1") ∧
    valid_jwt capsBadSig "token" "https://tenant.auth0.com" [Validation.SubjectPresent]
      = .error (.invalidJwt .invalidSignature) :=
  ⟨rfl,
   valid_jwt_invalid_signature capsBadSig "token" "https://tenant.auth0.com"
     [Validation.SubjectPresent] _ "k1" _ rfl rfl rfl rfl⟩

/-- Concrete capabilities: the network is down (the JWKS `GET` fails) and
the token's header segment cannot be decoded at all. -/
def capsDownAndGarbage : JwtCaps :=
  { get := fun _ => .error .connect
    token_kid := fun _ => .error ()
    validate := fun _ _ _ => .error .invalidSignature }

/-- C3 counterexample: for a token whose header cannot be decoded, when the
JWKS fetch fails the call returns the transport error of the fetch, not a
malformed-token classification — the classification of an undecodable
header does depend on the fetch, because line 112 fetches before line 113
decodes. -/
theorem valid_jwt_transport_shadows_bad_header :
    valid_jwt capsDownAndGarbage "garbage" "https://tenant.auth0.com" []
      = .error (.http .connect) ∧
    valid_jwt capsDownAndGarbage "garbage" "https://tenant.auth0.com" []
      ≠ .error .jwtMissingKid := by
  refine ⟨rfl, fun h => ?_⟩
  rw [show valid_jwt capsDownAndGarbage "garbage" "https://tenant.auth0.com" []
      = .error (.http .connect) from rfl] at h
  simp at h

/-- C3 amended: `valid_jwt` fetches the Key Set first and only then decodes
the header — when the fetch fails its error is returned unchanged whatever
the token looks like, and when the fetch succeeds an undecodable header is
classified as `JwtMissingKid` (the same UnknownSigningKey kind as an
unknown kid; the crate has no separate malformed-token error). -/
theorem valid_jwt_fetches_before_decoding (caps : JwtCaps)
    (token authority : String) (validations : List Validation) :
    (∀ e, fetch_jwks (caps.get (jwksUri authority)) = .error e →
      valid_jwt caps token authority validations = .error e) ∧
    (∀ jwks, fetch_jwks (caps.get (jwksUri authority)) = .ok jwks →
      caps.token_kid token = .error () →
      valid_jwt caps token authority validations = .error .jwtMissingKid) := by
  constructor
  · intro e he
    simp only [valid_jwt, he]
  · intro jwks hj hk
    simp only [valid_jwt, hj, hk]

/-- C3 witness: both branches at concrete capabilities — a failed fetch
propagates `Http(connect)`, and with a successful fetch an undecodable
header yields `JwtMissingKid`. -/
def capsBadHeaderFetchOk : JwtCaps :=
  { get := fun _ => .ok { status := 200, body := some (Json.obj [("keys", Json.arr [])]) }
    token_kid := fun _ => .error ()
    validate := fun _ _ _ => .error .invalidSignature }

theorem valid_jwt_fetches_before_decoding_witness :
    valid_jwt capsDownAndGarbage "tok" "https://tenant.auth0.com" []
      = .error (.http .connect) ∧
    valid_jwt capsBadHeaderFetchOk "tok" "https://tenant.auth0.com" []
      = .error .jwtMissingKid :=
  ⟨(valid_jwt_fetches_before_decoding capsDownAndGarbage "tok"
      "https://tenant.auth0.com" []).1 (.http .connect) rfl,
   (valid_jwt_fetches_before_decoding capsBadHeaderFetchOk "tok"
      "https://tenant.auth0.com" []).2 { keys := [] } rfl rfl⟩

/-- Concrete capabilities: the discovery endpoint is healthy, but the
token's header decodes to JSON that carries no kid field, so the external
`token_kid` returns `Ok(None)`. -/
def capsHeaderNoKid : JwtCaps :=
  { get := fun _ => .ok { status := 200, body := some jwksOneKeyBody }
    token_kid := fun _ => .ok none
    validate := fun _ _ _ => .error .invalidSignature }

/-- C8: on a token whose header decodes successfully but contains no kid
field, line 114's `.expect("failed to decode kid")` aborts the process
instead of returning a typed error — evaluating the embedded code at this
failing input reaches the abort. -/
theorem valid_jwt_aborts_without_kid :
    valid_jwt capsHeaderNoKid "headerWithoutKid" "https://tenant.auth0.com"
      [Validation.SubjectPresent] = .fatal "failed to decode kid" := rfl

/-- A received response whose body is JSON but not the access-token shape,
as a provider's error body typically is. -/
def errorBodyResp : Response :=
  { status := 500, body := some (Json.obj [("error", Json.str "access_denied")]) }

/-- A success body carrying both fields the provider sends. -/
def tokenBodyResp : Response :=
  { status := 500,
    body := some (Json.obj [("access_token", Json.str "tok"), ("token_type", Json.str "Bearer")]) }

/-- C4 counterexample: the token endpoint answers with non-success status
500, yet because line 63 only reads the status for the debug log,
`authenticate` does not return a Transport error — with a parseable body it
even succeeds and stores the token. -/
theorem authenticate_ok_on_error_status :
    (authenticate (Auth0Client.new "id" "secret" "https://tenant.auth0.com" "aud")
      (.ok tokenBodyResp)).2 = .ok () ∧
    (authenticate (Auth0Client.new "id" "secret" "https://tenant.auth0.com" "aud")
      (.ok tokenBodyResp)).1.access_token = some "tok" := ⟨rfl, rfl⟩

/-- C4 amended: neither outbound operation inspects the HTTP status — on a
received response, `authenticate` and `fetch_jwks` return the same result
for any two statuses with the same body; a Transport (`reqwest`) error is
returned exactly when the network call itself fails; on a received
response, `authenticate`'s outcome is decided by the body alone
(MalformedResponse when it does not parse as the access-token shape), and
`fetch_jwks` folds an unparseable body into the same Transport family as a
`reqwest` decode error. -/
theorem http_status_never_inspected (c : Auth0Client) (s s' : Nat)
    (b : Option Json) (e : ReqwestErr) :
    authenticate c (.ok { status := s, body := b })
      = authenticate c (.ok { status := s', body := b }) ∧
    fetch_jwks (.ok { status := s, body := b })
      = fetch_jwks (.ok { status := s', body := b }) ∧
    (authenticate c (.error e)).2 = .error (.http e) ∧
    fetch_jwks (.error e) = .error (.http e) ∧
    (parseAccessTokenResponse b = none →
      (authenticate c (.ok { status := s, body := b })).2 = .error .json) ∧
    (parseJWKS b = none →
      fetch_jwks (.ok { status := s, body := b }) = .error (.http .decode)) := by
  refine ⟨rfl, rfl, rfl, rfl, fun h => ?_, fun h => ?_⟩
  · simp only [authenticate, h]
  · simp only [fetch_jwks, h]

/-- C4 witness: at status 500 with a JSON error body, `authenticate`
returns the serde error (MalformedResponse), not Transport, and the result
equals the one at status 200. -/
theorem http_status_never_inspected_witness :
    parseAccessTokenResponse errorBodyResp.body = none ∧
    (authenticate (Auth0Client.new "id" "secret" "https://tenant.auth0.com" "aud")
      (.ok errorBodyResp)).2 = .error .json :=
  ⟨rfl,
   (http_status_never_inspected (Auth0Client.new "id" "secret" "https://tenant.auth0.com" "aud")
     500 200 errorBodyResp.body .connect).2.2.2.2.1 rfl⟩

/-- C5: `authenticate` is atomic in the stored token — whenever the call
fails (network failure or unparseable body), the whole client state, the
access token included, is exactly what it was before the call; the store
on line 70 is only reached after every fallible step. -/
theorem authenticate_atomic (c : Auth0Client) (r : Except ReqwestErr Response)
    (e : Error) (h : (authenticate c r).2 = .error e) :
    (authenticate c r).1 = c := by
  cases r with
  | error e2 => rfl
  | ok resp =>
    cases hp : parseAccessTokenResponse resp.body with
    | none => simp only [authenticate, hp]
    | some a =>
      simp only [authenticate, hp] at h
      exact Except.noConfusion h

/-- C5 witness: on a fresh client with an unreachable endpoint, the call
fails with Transport and the stored token is still absent. -/
theorem authenticate_atomic_witness :
    (authenticate (Auth0Client.new "id" "secret" "https://tenant.auth0.com" "aud")
      (.error .connect)).2 = .error (.http .connect) ∧
    (authenticate (Auth0Client.new "id" "secret" "https://tenant.auth0.com" "aud")
      (.error .connect)).1.access_token = none :=
  ⟨rfl, by
    rw [authenticate_atomic (Auth0Client.new "id" "secret" "https://tenant.auth0.com" "aud")
      (.error .connect) (.http .connect) rfl]
    rfl⟩

/-- C6: lifecycle of the stored Access Token — absent on a freshly
constructed client; after a successful call whose body carried
access_token t, the accessor reads exactly t whatever was stored before;
a failed call leaves the accessor's value unchanged; and a stored value
only ever arises from a successfully parsed response. The accessor itself
(lines 74-76) is a pure read of the field, modelled as the projection. -/
theorem access_token_lifecycle (cid cs dom aud t : String) (c : Auth0Client)
    (resp : Response) (r : Except ReqwestErr Response) (e : Error) :
    (Auth0Client.new cid cs dom aud).access_token = none ∧
    (parseAccessTokenResponse resp.body = some { access_token := t } →
      (authenticate c (.ok resp)).1.access_token = some t) ∧
    ((authenticate c r).2 = .error e →
      (authenticate c r).1.access_token = c.access_token) ∧
    ((authenticate c r).2 = .ok () → ∃ resp2 a, r = .ok resp2 ∧
      parseAccessTokenResponse resp2.body = some a ∧
      (authenticate c r).1.access_token = some a.access_token) := by
  refine ⟨rfl, fun hp => ?_, fun he => ?_, fun hok => ?_⟩
  · simp only [authenticate, hp]
  · cases r with
    | error e2 => rfl
    | ok resp2 =>
      cases hp : parseAccessTokenResponse resp2.body with
      | none => simp only [authenticate, hp]
      | some a =>
        simp only [authenticate, hp] at he
        exact Except.noConfusion he
  · cases r with
    | error e2 =>
      simp only [authenticate] at hok
      exact Except.noConfusion hok
    | ok resp2 =>
      cases hp : parseAccessTokenResponse resp2.body with
      | none =>
        simp only [authenticate, hp] at hok
        exact Except.noConfusion hok
      | some a =>
        exact ⟨resp2, a, rfl, hp, by simp only [authenticate, hp]⟩

/-- C6 witness: the spec's scenario — a fresh client has no token; after a
successful call against a body with access_token "T" and token_type
"Bearer", the accessor reads exactly "T". -/
theorem access_token_lifecycle_witness :
    (Auth0Client.new "id" "secret" "https://tenant.auth0.com" "aud").access_token = none ∧
    (authenticate (Auth0Client.new "id" "secret" "https://tenant.auth0.com" "aud")
      (.ok { status := 200,
             body := some (Json.obj [("access_token", Json.str "T"), ("token_type", Json.str "Bearer")]) })).1.access_token
      = some "T" :=
  ⟨(access_token_lifecycle "id" "secret" "https://tenant.auth0.com" "aud" "T"
      (Auth0Client.new "id" "secret" "https://tenant.auth0.com" "aud")
      { status := 200,
        body := some (Json.obj [("access_token", Json.str "T"), ("token_type", Json.str "Bearer")]) }
      (.error .connect) (.http .connect)).1,
   (access_token_lifecycle "id" "secret" "https://tenant.auth0.com" "aud" "T"
      (Auth0Client.new "id" "secret" "https://tenant.auth0.com" "aud")
      { status := 200,
        body := some (Json.obj [("access_token", Json.str "T"), ("token_type", Json.str "Bearer")]) }
      (.error .connect) (.http .connect)).2.1 rfl⟩

/-- A single replace pass over a character list with no two adjacent
slashes leaves the list unchanged. -/
theorem collapseSlashes_of_no_double :
    ∀ l : List Char, hasDoubleSlash l = false → collapseSlashes l = l
  | [], _ => rfl
  | [_], _ => rfl
  | c1 :: c2 :: rest, h => by
    by_cases hc : c1 = '/' ∧ c2 = '/'
    · exfalso
      simp only [hasDoubleSlash, hc.1, hc.2] at h
      simp at h
    · have h2 : hasDoubleSlash (c2 :: rest) = false := by
        simp only [hasDoubleSlash] at h
        exact (Bool.or_eq_false_iff.mp h).2
      rw [collapseSlashes, if_neg hc, collapseSlashes_of_no_double (c2 :: rest) h2]

/-- C7 counterexample: for the domain "https://tenant.auth0.com" — which
contains no duplicate path separator — line 48's `.replace("//", "/")`
also rewrites the scheme separator, so the URL is
"https:/tenant.auth0.com/oauth/token" rather than the claimed
domain ++ "/oauth/token" with scheme and host intact. -/
theorem authUrl_mangles_scheme :
    authUrl "https://tenant.auth0.com" = "https:/tenant.auth0.com/oauth/token" ∧
    authUrl "https://tenant.auth0.com" ≠ "https://tenant.auth0.com/oauth/token" := by
  exact ⟨by decide, by decide⟩

/-- C7 amended: the request URL is domain ++ "/oauth/token" with every
occurrence of "//" — the scheme separator included — collapsed to "/" in
one left-to-right pass; in particular, whenever the concatenation contains
no adjacent pair of slashes the URL is exactly domain ++ "/oauth/token";
and the request body holds exactly the four configured fields grant_type,
client_id, client_secret and audience. -/
theorem authenticate_request_shape (c : Auth0Client)
    (h : hasDoubleSlash (c.domain ++ "/oauth/token").data = false) :
    authUrl c.domain = c.domain ++ "/oauth/token" ∧
    authBody c = [("grant_type", c.grant_type), ("client_id", c.client_id),
                  ("client_secret", c.client_secret), ("audience", c.audience)] := by
  refine ⟨?_, rfl⟩
  unfold authUrl
  rw [collapseSlashes_of_no_double _ h]

/-- C7 witness: a bare domain without scheme has no adjacent slashes, and
its URL is exactly domain ++ "/oauth/token". -/
theorem authenticate_request_shape_witness :
    hasDoubleSlash ((("tenant.auth0.com" : String) ++ "/oauth/token")).data = false ∧
    authUrl (Auth0Client.new "id" "secret" "tenant.auth0.com" "aud").domain
      = ("tenant.auth0.com" : String) ++ "/oauth/token" :=
  ⟨by decide,
   (authenticate_request_shape (Auth0Client.new "id" "secret" "tenant.auth0.com" "aud")
     (by decide)).1⟩

/-- Capabilities of a first `valid_jwt` invocation. -/
def capsDet1 : JwtCaps :=
  { get := fun _ => .ok { status := 200, body := some jwksOneKeyBody }
    token_kid := fun _ => .ok (some "k1")
    validate := fun _ _ _ => .ok { headers := Json.null, claims := Json.null } }

/-- Capabilities of a second invocation: a different `get` function that
serves the same key-set document at the discovery URI. -/
def capsDet2 : JwtCaps :=
  { get := fun u => if u = "https://tenant.auth0.com/.well-known/jwks.json"
      then .ok { status := 200, body := some jwksOneKeyBody } else .error .connect
    token_kid := fun _ => .ok (some "k1")
    validate := fun _ _ _ => .ok { headers := Json.null, claims := Json.null } }

/-- C9: two invocations of `valid_jwt` on the same token, the same list of
validations, and capabilities that agree on the fetched key-set document,
the header decoding and the verification outcomes, classify identically —
the pipeline is a deterministic function of those inputs. -/
theorem valid_jwt_deterministic (caps1 caps2 : JwtCaps)
    (token authority : String) (validations : List Validation)
    (hget : caps1.get (jwksUri authority) = caps2.get (jwksUri authority))
    (hkid : caps1.token_kid token = caps2.token_kid token)
    (hval : ∀ jwk, caps1.validate token jwk validations
      = caps2.validate token jwk validations) :
    valid_jwt caps1 token authority validations
      = valid_jwt caps2 token authority validations := by
  unfold valid_jwt
  rw [hget, hkid]
  split
  · rfl
  · split
    · rfl
    · rfl
    · split
      · rfl
      · rw [hval]

/-- C9 witness: two syntactically different capability records that serve
the same key set yield the same classification. -/
theorem valid_jwt_deterministic_witness :
    valid_jwt capsDet1 "token" "https://tenant.auth0.com" [Validation.NotExpired]
      = valid_jwt capsDet2 "token" "https://tenant.auth0.com" [Validation.NotExpired] :=
  valid_jwt_deterministic capsDet1 capsDet2 "token" "https://tenant.auth0.com"
    [Validation.NotExpired] rfl rfl (fun _ => rfl)

/-- A 200 response whose body carries an access_token and nothing else. -/
def noTokenTypeResp : Response :=
  { status := 200, body := some (Json.obj [("access_token", Json.str "T")]) }

/-- C10 counterexample: a response whose body has an access_token but no
token_type field at all is accepted — `AccessTokenResponse` (lines 39-43)
declares only access_token, and serde ignores unknown and absent extra
fields, so the claimed token_type requirement does not hold. -/
theorem authenticate_ok_without_token_type :
    (authenticate (Auth0Client.new "id" "secret" "https://tenant.auth0.com" "aud")
      (.ok noTokenTypeResp)).2 = .ok () ∧
    (authenticate (Auth0Client.new "id" "secret" "https://tenant.auth0.com" "aud")
      (.ok noTokenTypeResp)).1.access_token = some "T" := ⟨rfl, rfl⟩

/-- C10 amended: `authenticate` succeeds on a received response exactly
when the body is a JSON object with a string access_token field —
token_type is not declared on the deserialized shape and is never
required; a body lacking access_token, or that is not JSON, fails with
the serde error (MalformedResponse). -/
theorem authenticate_response_shape (c : Auth0Client) (s : Nat)
    (fields : List (String × Json)) (t : String) :
    (lookupField fields "access_token" = some (Json.str t) →
      authenticate c (.ok { status := s, body := some (Json.obj fields) })
        = ({ c with access_token := some t }, .ok ())) ∧
    (lookupField fields "access_token" = none →
      (authenticate c (.ok { status := s, body := some (Json.obj fields) })).2
        = .error .json) ∧
    (authenticate c (.ok { status := s, body := none })).2 = .error .json := by
  refine ⟨fun hl => ?_, fun hl => ?_, rfl⟩
  · simp only [authenticate, parseAccessTokenResponse, hl]
  · simp only [authenticate, parseAccessTokenResponse, hl]

/-- C10 witness: a body with only an access_token field succeeds and
stores it; one with only a token_type field fails with the serde error. -/
theorem authenticate_response_shape_witness :
    lookupField [("access_token", Json.str "T2")] "access_token"
      = some (Json.str "T2") ∧
    (authenticate (Auth0Client.new "id" "secret" "https://tenant.auth0.com" "aud")
      (.ok { status := 200, body := some (Json.obj [("access_token", Json.str "T2")]) })).1.access_token
      = some "T2" ∧
    (authenticate (Auth0Client.new "id" "secret" "https://tenant.auth0.com" "aud")
      (.ok { status := 200, body := some (Json.obj [("token_type", Json.str "Bearer")]) })).2
      = .error .json :=
  ⟨rfl,
   by rw [(authenticate_response_shape
       (Auth0Client.new "id" "secret" "https://tenant.auth0.com" "aud") 200
       [("access_token", Json.str "T2")] "T2").1 rfl],
   (authenticate_response_shape
       (Auth0Client.new "id" "secret" "https://tenant.auth0.com" "aud") 200
       [("token_type", Json.str "Bearer")] "T2").2.1 rfl⟩

end Auth0
